import Mathlib

/-!
Shallow embedding of the flowcast pipeline control-plane server
(`src/server.py`) and proofs about it.

The server manages GStreamer pipelines on behalf of WebSocket clients.
We embed its pure control logic directly:

* the engine (GStreamer) is abstracted by oracles: `parse` models
  `Gst.parse_launch` (success or an exception message), `setState` models
  `Gst.Element.set_state`, `position` models `query_position`;
* Python dicts keyed by strings become insertion-ordered association
  lists (`dictLookup` / `dictInsert` / `dictErase`), matching dict
  semantics: assignment to an existing key replaces in place, `del`
  removes, iteration is in insertion order;
* each method of `GstreamerPipeline` becomes a function returning the
  updated object together with the value the Python method returns; the
  list of engine states passed to `set_state` is returned as an explicit
  request trace so "which state was requested" is observable;
* coroutined sends become explicit result lists: `broadcast_message`
  returns the (possibly timestamped) message and the per-client outcome
  of each `client.send`, mirroring `asyncio.gather(..., return_exceptions=True)`.
-/

/-- The engine states of `Gst.State` used by the server; `VOID_PENDING`
stands for any engine state outside the server's `PIPELINE_STATES` map. -/
inductive GstState where
  | NULL
  | READY
  | PAUSED
  | PLAYING
  | VOID_PENDING
deriving DecidableEq, Repr

/-- Result of `Gst.Element.set_state`. -/
inductive StateChangeReturn where
  | FAILURE
  | SUCCESS
  | ASYNC
  | NO_PREROLL
deriving DecidableEq, Repr

/-- The module-level `PIPELINE_STATES` dict: engine state to display name. -/
def PIPELINE_STATES : GstState → Option String
  | GstState.NULL => some "NULL"
  | GstState.READY => some "READY"
  | GstState.PAUSED => some "PAUSED"
  | GstState.PLAYING => some "PLAYING"
  | GstState.VOID_PENDING => none

/-- `PIPELINE_STATES.get(state, "UNKNOWN")`. -/
def gstStateName (s : GstState) : String :=
  (PIPELINE_STATES s).getD "UNKNOWN"

/-- One element of a `createPipeline` payload's `elements` list:
`{type, properties?}`. An absent `properties` key is the empty list. -/
structure StageSpec where
  type : String
  properties : List (String × String)
deriving DecidableEq, Repr

/-- The engine-side pipeline object obtained from `Gst.parse_launch`,
reduced to the state it reports; the state after an accepted
`set_state(S)` request is modelled as `S` itself. -/
structure EnginePipeline where
  state : GstState
deriving DecidableEq, Repr

/-- Telemetry snapshot computed by `get_status`. -/
structure Stats where
  bufferHealth : Nat
  bitrate : Nat
  framesReceived : Nat
  framesDropped : Nat
  latency : Nat
deriving DecidableEq, Repr

/-- The `GstreamerPipeline` object.  `pipeline = none` models
`self.pipeline is None`; `stats = none` models the initial empty dict. -/
structure GstreamerPipeline where
  id : String
  description : String
  elements : List StageSpec
  pipeline : Option EnginePipeline := none
  stats : Option Stats := none
  error : Option String := none
  bus_watch_id : Option Nat := none
deriving DecidableEq, Repr

/-- The per-element fragment of `build_pipeline_string`:
the element type followed by ` name=value` for each property. -/
def stageString (e : StageSpec) : String :=
  e.properties.foldl (fun acc pv => acc ++ " " ++ pv.1 ++ "=" ++ pv.2) e.type

/-- `GstreamerPipeline.build_pipeline_string`: fragments joined by `" ! "`. -/
def GstreamerPipeline.build_pipeline_string (p : GstreamerPipeline) : String :=
  String.intercalate " ! " (p.elements.map stageString)

/-- Successful `create()` return dict. -/
structure CreateSnapshot where
  id : String
  description : String
  state : String
  elements : List StageSpec
deriving DecidableEq, Repr

/-- Error return dict `{id, errorCode, errorMessage}`. -/
structure OpError where
  id : String
  errorCode : String
  errorMessage : String
deriving DecidableEq, Repr

/-- Successful `start()`/`stop()` return dict. -/
structure StateSnapshot where
  id : String
  state : String
  message : String
deriving DecidableEq, Repr

/-- `delete()` return dict. -/
structure DeleteSnapshot where
  id : String
  message : String
deriving DecidableEq, Repr

/-- `get_status()` return dict; `stats = none` is the empty stats dict. -/
structure StatusSnapshot where
  id : String
  state : String
  stats : Option Stats
deriving DecidableEq, Repr

/-- `GstreamerPipeline.create`.  `parse` is the engine's `Gst.parse_launch`
on the built pipeline string: an exception message or success.  On success
the engine object starts in NULL and the bus watch is installed
(`bus.add_watch` returns a positive GLib source id, modelled as 1) before
the snapshot is returned. -/
def GstreamerPipeline.create (p : GstreamerPipeline)
    (parse : String → Except String Unit) :
    GstreamerPipeline × Except OpError CreateSnapshot :=
  match parse p.build_pipeline_string with
  | Except.error e =>
      ({ p with error := some e },
       Except.error { id := p.id, errorCode := "creation-failed", errorMessage := e })
  | Except.ok _ =>
      ({ p with pipeline := some { state := GstState.NULL }, bus_watch_id := some 1 },
       Except.ok { id := p.id, description := p.description, state := "NULL",
                   elements := p.elements })

/-- `GstreamerPipeline.start`.  `setState` is the engine's response to a
`set_state` request; the middle component is the trace of states requested
from the engine during the call. -/
def GstreamerPipeline.start (p : GstreamerPipeline)
    (setState : GstState → StateChangeReturn) :
    GstreamerPipeline × List GstState × Except OpError StateSnapshot :=
  match p.pipeline with
  | none =>
      (p, [],
       Except.error { id := p.id, errorCode := "not-created",
                      errorMessage := "Pipeline not created" })
  | some eng =>
      match setState GstState.PLAYING with
      | StateChangeReturn.FAILURE =>
          (p, [GstState.PLAYING],
           Except.error { id := p.id, errorCode := "start-failed",
                          errorMessage := "Failed to start pipeline" })
      | _ =>
          ({ p with pipeline := some { eng with state := GstState.PLAYING } },
           [GstState.PLAYING],
           Except.ok { id := p.id, state := "PLAYING", message := "Pipeline started" })

/-- `GstreamerPipeline.stop`: requests PAUSED from the engine. -/
def GstreamerPipeline.stop (p : GstreamerPipeline)
    (setState : GstState → StateChangeReturn) :
    GstreamerPipeline × List GstState × Except OpError StateSnapshot :=
  match p.pipeline with
  | none =>
      (p, [],
       Except.error { id := p.id, errorCode := "not-created",
                      errorMessage := "Pipeline not created" })
  | some eng =>
      match setState GstState.PAUSED with
      | StateChangeReturn.FAILURE =>
          (p, [GstState.PAUSED],
           Except.error { id := p.id, errorCode := "stop-failed",
                          errorMessage := "Failed to pause pipeline" })
      | _ =>
          ({ p with pipeline := some { eng with state := GstState.PAUSED } },
           [GstState.PAUSED],
           Except.ok { id := p.id, state := "PAUSED", message := "Pipeline paused" })

/-- Python truthiness of the optional bus-watch id (`if self.bus_watch_id:`). -/
def optTruthy : Option Nat → Bool
  | none => false
  | some n => n != 0

/-- `GstreamerPipeline.delete`: if an engine object exists, request NULL,
remove the bus watch when one is installed, and drop the engine object;
always return the deletion dict. -/
def GstreamerPipeline.delete (p : GstreamerPipeline) :
    GstreamerPipeline × List GstState × DeleteSnapshot :=
  match p.pipeline with
  | some _ =>
      let p1 := if optTruthy p.bus_watch_id then { p with bus_watch_id := none } else p
      ({ p1 with pipeline := none }, [GstState.NULL],
       { id := p.id, message := "Pipeline deleted" })
  | none =>
      (p, [], { id := p.id, message := "Pipeline deleted" })

/-- Stats computed by `get_status` from the `query_position` result in
nanoseconds (`none` means the query failed and position stays 0).  The
source's float arithmetic `position = position_ns / Gst.SECOND`,
`int(position * 30)` and `int(position * 0.5)` is modelled as integer
division on nanoseconds. -/
def computeStats (posResult : Option Nat) : Stats :=
  let position_ns := posResult.getD 0
  { bufferHealth := 80
    bitrate := 2500000
    framesReceived := 100 + position_ns * 30 / 1000000000
    framesDropped := position_ns / 2000000000
    latency := 150 }

/-- `GstreamerPipeline.get_status`: with no engine object, NULL with empty
stats; otherwise query the live state, recompute stats and store them. -/
def GstreamerPipeline.get_status (p : GstreamerPipeline)
    (posResult : Option Nat) : GstreamerPipeline × StatusSnapshot :=
  match p.pipeline with
  | none => (p, { id := p.id, state := "NULL", stats := none })
  | some eng =>
      let st := computeStats posResult
      ({ p with stats := some st },
       { id := p.id, state := gstStateName eng.state, stats := some st })

/-- A message arriving on the pipeline's bus, as consumed by
`bus_callback`: an ERROR (with `parse_error`'s message and debug string),
EOS, a STATE_CHANGED (with a flag telling whether `message.src` is the
pipeline itself), or any other message type. -/
inductive BusMessage where
  | error (message : String) (debug : Option String)
  | eos
  | state_changed (srcIsPipeline : Bool) (oldState newState : GstState)
  | other
deriving DecidableEq, Repr

/-- Payload of a message handed to `broadcast_message` from the engine
side: the error dict, a state dict, or a stats dict. -/
inductive AsyncPayload where
  | errorInfo (id : String) (errorCode : String) (errorMessage : String)
      (details : Option String)
  | stateInfo (id : String) (state : String) (message : String)
  | statsInfo (id : String) (stats : Option Stats)
deriving DecidableEq, Repr

/-- A `{type, payload}` dict scheduled for broadcast from the engine
context or the telemetry loop (before `broadcast_message` adds the
timestamp). -/
structure AsyncMsg where
  type : String
  payload : AsyncPayload
deriving DecidableEq, Repr

/-- `GstreamerPipeline.bus_callback`: returns the updated object, the
message scheduled for broadcast (if any), and the boolean the callback
returns to GLib (always `true`, keep watching). -/
def GstreamerPipeline.bus_callback (p : GstreamerPipeline) (msg : BusMessage) :
    GstreamerPipeline × Option AsyncMsg × Bool :=
  match msg with
  | BusMessage.error m d =>
      ({ p with error := some m },
       some { type := "pipelineError",
              payload := AsyncPayload.errorInfo p.id "gst-error" m d },
       true)
  | BusMessage.eos =>
      (p,
       some { type := "pipelineStateChanged",
              payload := AsyncPayload.stateInfo p.id "NULL" "End of stream" },
       true)
  | BusMessage.state_changed srcIsP os ns =>
      if srcIsP then
        (p,
         some { type := "pipelineStateChanged",
                payload := AsyncPayload.stateInfo p.id (gstStateName ns)
                  ("State changed from " ++ gstStateName os ++ " to " ++ gstStateName ns) },
         true)
      else (p, none, true)
  | BusMessage.other => (p, none, true)

/-- A connected WebSocket client, reduced to the behaviour of its `send`
coroutine on an encoded message: success or a raised exception message. -/
structure Client where
  send : String → Except String Unit

/-- A dict passed to `broadcast_message`: its fields other than
`timestamp` are kept as an opaque already-rendered body, since
`broadcast_message` treats them opaquely. -/
structure BroadcastDict where
  body : String
  timestamp : Option Nat
deriving DecidableEq, Repr

/-- A JSON string literal (escaping is irrelevant to the properties proved). -/
def jsonStr (s : String) : String := "\"" ++ s ++ "\""

/-- A JSON-rendered optional string (`None` serializes as `null`). -/
def jsonOptStr : Option String → String
  | none => "null"
  | some s => jsonStr s

/-- `json.dumps` of the broadcast dict: the opaque body fields plus the
`timestamp` field. -/
def encodeDict (m : BroadcastDict) : String :=
  "\x7b" ++ m.body ++ ", " ++ jsonStr "timestamp" ++ ": " ++
    (match m.timestamp with
     | some t => toString t
     | none => "null") ++ "\x7d"

/-- The body fields of an engine-side message, rendered for `json.dumps`. -/
def encodeAsyncPayload : AsyncPayload → String
  | AsyncPayload.errorInfo i c m d =>
      "\x7b" ++ jsonStr "id" ++ ": " ++ jsonStr i ++ ", " ++
        jsonStr "errorCode" ++ ": " ++ jsonStr c ++ ", " ++
        jsonStr "errorMessage" ++ ": " ++ jsonStr m ++ ", " ++
        jsonStr "details" ++ ": " ++ jsonOptStr d ++ "\x7d"
  | AsyncPayload.stateInfo i s m =>
      "\x7b" ++ jsonStr "id" ++ ": " ++ jsonStr i ++ ", " ++
        jsonStr "state" ++ ": " ++ jsonStr s ++ ", " ++
        jsonStr "message" ++ ": " ++ jsonStr m ++ "\x7d"
  | AsyncPayload.statsInfo i st =>
      "\x7b" ++ jsonStr "id" ++ ": " ++ jsonStr i ++ ", " ++
        jsonStr "stats" ++ ": " ++
        (match st with
         | none => "\x7b\x7d"
         | some s =>
             "\x7b" ++ jsonStr "framesReceived" ++ ": " ++ toString s.framesReceived ++
               ", " ++ jsonStr "framesDropped" ++ ": " ++ toString s.framesDropped ++ "\x7d") ++
        "\x7d"

/-- The opaque body of the broadcast dict built from an engine-side message. -/
def asyncBody (m : AsyncMsg) : String :=
  jsonStr "type" ++ ": " ++ jsonStr m.type ++ ", " ++
    jsonStr "payload" ++ ": " ++ encodeAsyncPayload m.payload

/-- `broadcast_message`: if the connected set is empty nothing happens and
the dict is untouched; otherwise the millisecond timestamp is attached,
the dict is serialized once, and `send` is attempted on every client, each
outcome collected (`asyncio.gather(..., return_exceptions=True)`). -/
def broadcast_message (clients : List Client) (now : Nat)
    (message : BroadcastDict) : BroadcastDict × List (Except String Unit) :=
  if clients.isEmpty then (message, [])
  else
    let message := { message with timestamp := some now }
    let encoded := encodeDict message
    (message, clients.map fun c => c.send encoded)

/-- The `pipelineStats` dict broadcast by the telemetry loop. -/
def statsMessage (pipeline_id : String) (st : Option Stats) : AsyncMsg :=
  { type := "pipelineStats", payload := AsyncPayload.statsInfo pipeline_id st }

/-- One iteration of the `send_stats_updates` loop body over the registry:
recompute every pipeline's status in insertion order (storing the fresh
stats back) and collect a `pipelineStats` broadcast for exactly the
pipelines whose fresh state is PLAYING. -/
def send_stats_iteration :
    List (String × GstreamerPipeline) → (String → Option Nat) →
      List (String × GstreamerPipeline) × List AsyncMsg
  | [], _ => ([], [])
  | (pid, p) :: rest, posQ =>
      let r := p.get_status (posQ pid)
      let rec' := send_stats_iteration rest posQ
      if r.2.state = "PLAYING" then
        ((pid, r.1) :: rec'.1, statsMessage pid r.2.stats :: rec'.2)
      else
        ((pid, r.1) :: rec'.1, rec'.2)

/-- One tick of the `while True` telemetry loop: either the iteration body
runs over a registry snapshot, or some exception is raised during it. -/
inductive TickInput where
  | poll (pipelines : List (String × GstreamerPipeline)) (posQ : String → Option Nat)
  | raised (e : String)

/-- `send_stats_updates` over a finite trace of ticks: a normal tick emits
its broadcasts and sleeps 1 second; a tick whose body raises is caught by
the `except` clause, logs, emits nothing and sleeps 5 seconds — the loop
itself continues with the next tick in every case. -/
def send_stats_updates : List TickInput → List (List AsyncMsg × Nat)
  | [] => []
  | TickInput.poll regs posQ :: rest =>
      ((send_stats_iteration regs posQ).2, 1) :: send_stats_updates rest
  | TickInput.raised _ :: rest =>
      ([], 5) :: send_stats_updates rest

/-- Lookup in an insertion-ordered dict. -/
def dictLookup {α : Type} : List (String × α) → String → Option α
  | [], _ => none
  | (k, v) :: rest, key => if k = key then some v else dictLookup rest key

/-- Dict assignment `d[key] = v`: replaces in place if the key is present,
otherwise appends. -/
def dictInsert {α : Type} : List (String × α) → String → α → List (String × α)
  | [], key, v => [(key, v)]
  | (k, w) :: rest, key, v =>
      if k = key then (key, v) :: rest else (k, w) :: dictInsert rest key v

/-- `del d[key]`: removes the entry (keys are unique in a Python dict). -/
def dictErase {α : Type} : List (String × α) → String → List (String × α)
  | [], _ => []
  | (k, w) :: rest, key => if k = key then rest else (k, w) :: dictErase rest key

/-- An inbound client command, after `json.loads` and field extraction:
`id`/`description` are `none` when absent from the payload; for
`createPipeline`, an absent `pipeline` or `elements` key gives the empty
list.  `unknown` covers every unrecognized `type`. -/
inductive Command where
  | ping
  | createPipeline (id : Option String) (description : Option String)
      (elements : List StageSpec)
  | startPipeline (id : Option String)
  | stopPipeline (id : Option String)
  | deletePipeline (id : Option String)
  | getPipelines
  | unknown
deriving Repr

/-- An outbound message sent on the handling client's socket, with the
millisecond timestamp attached at send time.  The `id` of a
`pipelineError` is optional because a missing payload id is echoed back
as JSON `null`. -/
inductive Outbound where
  | pong (timestamp : Nat)
  | pipelineError (id : Option String) (errorCode : String)
      (errorMessage : String) (timestamp : Nat)
  | pipelineCreated (pipeline : CreateSnapshot) (timestamp : Nat)
  | pipelineStateChanged (payload : StateSnapshot) (timestamp : Nat)
  | pipelineDeleted (payload : DeleteSnapshot) (timestamp : Nat)
  | pipelinesList (pipelines : List StatusSnapshot) (timestamp : Nat)
deriving DecidableEq, Repr

/-- The engine-and-clock environment a message handler runs in:
`parse` answers `Gst.parse_launch`, `setState` answers `set_state` on the
addressed pipeline, `position` answers `query_position` per pipeline id,
`now` is the event-loop time in milliseconds. -/
structure EngineEnv where
  parse : String → Except String Unit
  setState : GstState → StateChangeReturn
  position : String → Option Nat
  now : Nat

/-- The `not-found` reply dict. -/
def notFoundReply (oid : Option String) (now : Nat) : Outbound :=
  Outbound.pipelineError oid "not-found" "Pipeline not found" now

/-- `[pipeline.get_status() for pipeline in pipelines.values()]`, also
returning the registry with the freshly stored stats. -/
def listStatuses :
    List (String × GstreamerPipeline) → (String → Option Nat) →
      List (String × GstreamerPipeline) × List StatusSnapshot
  | [], _ => ([], [])
  | (pid, p) :: rest, posQ =>
      let r := p.get_status (posQ pid)
      let rec' := listStatuses rest posQ
      ((pid, r.1) :: rec'.1, r.2 :: rec'.2)

/-- One step of `handle_websocket`'s message loop: given the registry, the
environment and a parsed command, return the updated registry and the
messages sent back on this client's socket.  Mirrors the Python branch by
branch, including the falsiness check `if not pipeline_id or pipeline_id
not in pipelines` (an absent or empty id counts as not found). -/
def handle_message (st : List (String × GstreamerPipeline)) (env : EngineEnv) :
    Command → List (String × GstreamerPipeline) × List Outbound
  | Command.ping => (st, [Outbound.pong env.now])
  | Command.createPipeline oid odesc elements =>
      let pipeline_id := oid.getD ("pipeline-" ++ toString env.now)
      let description := odesc.getD ("Pipeline " ++ pipeline_id)
      if elements.isEmpty then
        (st, [Outbound.pipelineError (some pipeline_id) "invalid-pipeline"
                "No pipeline elements provided" env.now])
      else
        let pl : GstreamerPipeline :=
          { id := pipeline_id, description := description, elements := elements }
        let r := pl.create env.parse
        match r.2 with
        | Except.error e =>
            (st, [Outbound.pipelineError (some e.id) e.errorCode e.errorMessage env.now])
        | Except.ok snap =>
            (dictInsert st pipeline_id r.1, [Outbound.pipelineCreated snap env.now])
  | Command.startPipeline oid =>
      match oid with
      | none => (st, [notFoundReply none env.now])
      | some pid =>
          if pid.isEmpty then (st, [notFoundReply (some pid) env.now])
          else
            match dictLookup st pid with
            | none => (st, [notFoundReply (some pid) env.now])
            | some p =>
                let r := p.start env.setState
                match r.2.2 with
                | Except.error e =>
                    (dictInsert st pid r.1,
                     [Outbound.pipelineError (some e.id) e.errorCode e.errorMessage env.now])
                | Except.ok snap =>
                    (dictInsert st pid r.1, [Outbound.pipelineStateChanged snap env.now])
  | Command.stopPipeline oid =>
      match oid with
      | none => (st, [notFoundReply none env.now])
      | some pid =>
          if pid.isEmpty then (st, [notFoundReply (some pid) env.now])
          else
            match dictLookup st pid with
            | none => (st, [notFoundReply (some pid) env.now])
            | some p =>
                let r := p.stop env.setState
                match r.2.2 with
                | Except.error e =>
                    (dictInsert st pid r.1,
                     [Outbound.pipelineError (some e.id) e.errorCode e.errorMessage env.now])
                | Except.ok snap =>
                    (dictInsert st pid r.1, [Outbound.pipelineStateChanged snap env.now])
  | Command.deletePipeline oid =>
      match oid with
      | none => (st, [notFoundReply none env.now])
      | some pid =>
          if pid.isEmpty then (st, [notFoundReply (some pid) env.now])
          else
            match dictLookup st pid with
            | none => (st, [notFoundReply (some pid) env.now])
            | some p =>
                let r := p.delete
                (dictErase st pid, [Outbound.pipelineDeleted r.2.2 env.now])
  | Command.getPipelines =>
      let r := listStatuses st env.position
      (r.1, [Outbound.pipelinesList r.2 env.now])
  | Command.unknown => (st, [])

theorem dictLookup_dictInsert_self {α : Type} (st : List (String × α))
    (k : String) (v : α) : dictLookup (dictInsert st k v) k = some v := by
  induction st with
  | nil => simp [dictInsert, dictLookup]
  | cons hd tl ih =>
      obtain ⟨k1, v1⟩ := hd
      by_cases h : k1 = k
      · simp [dictInsert, dictLookup, h]
      · simp [dictInsert, dictLookup, h, ih]

theorem dictInsert_length_of_lookup {α : Type} (st : List (String × α))
    (k : String) (w v : α) (h : dictLookup st k = some w) :
    (dictInsert st k v).length = st.length := by
  induction st with
  | nil => simp [dictLookup] at h
  | cons hd tl ih =>
      obtain ⟨k1, v1⟩ := hd
      by_cases hk : k1 = k
      · simp [dictInsert, hk]
      · simp [dictLookup, hk] at h
        simp [dictInsert, hk, ih h]

theorem dictLookup_eq_none_of_not_mem {α : Type} (st : List (String × α))
    (k : String) (h : k ∉ st.map Prod.fst) : dictLookup st k = none := by
  induction st with
  | nil => rfl
  | cons hd tl ih =>
      obtain ⟨k1, v1⟩ := hd
      simp only [List.map_cons, List.mem_cons] at h
      push_neg at h
      have hne : ¬ k1 = k := fun hh => h.1 hh.symm
      simp [dictLookup, hne, ih h.2]

theorem dictLookup_dictErase_self {α : Type} (st : List (String × α))
    (k : String) (hnd : (st.map Prod.fst).Nodup) :
    dictLookup (dictErase st k) k = none := by
  induction st with
  | nil => rfl
  | cons hd tl ih =>
      obtain ⟨k1, v1⟩ := hd
      simp only [List.map_cons, List.nodup_cons] at hnd
      by_cases hk : k1 = k
      · subst hk
        simp only [dictErase, if_pos rfl]
        exact dictLookup_eq_none_of_not_mem tl k1 hnd.1
      · simp [dictErase, hk, dictLookup, ih hnd.2]

/-- A one-element stage list used for concrete runs. -/
def srcStage : StageSpec := { type := "videotestsrc", properties := [] }

/-- A concrete environment: the engine accepts everything, position
queries fail, the clock reads 1000 ms. -/
def okEnv : EngineEnv :=
  { parse := fun _ => Except.ok ()
    setState := fun _ => StateChangeReturn.SUCCESS
    position := fun _ => none
    now := 1000 }

/-- A concrete pipeline object as it exists after a successful create. -/
def plCreated : GstreamerPipeline :=
  { id := "p1", description := "Pipeline p1", elements := [srcStage],
    pipeline := some { state := GstState.NULL }, bus_watch_id := some 1 }

/-- A concrete registered pipeline that is currently PLAYING, with a
description distinguishable from a freshly created one. -/
def plOld : GstreamerPipeline :=
  { id := "p1", description := "old pipeline", elements := [srcStage],
    pipeline := some { state := GstState.PLAYING }, bus_watch_id := some 1 }

/-- A pipeline object before `create()` is called. -/
def preCreate : GstreamerPipeline :=
  { id := "p1", description := "d", elements := [srcStage] }

/-- C2: whenever `create()` succeeds, the returned snapshot reports state
NULL, the bus watch (event subscription) is installed on the returned
handle, and `get_status` on that handle reports NULL before any start. -/
theorem create_success_reports_null_and_subscribes (p : GstreamerPipeline)
    (parse : String → Except String Unit) (snap : CreateSnapshot)
    (h : (p.create parse).2 = Except.ok snap) :
    snap.state = "NULL" ∧
    (p.create parse).1.bus_watch_id.isSome = true ∧
    ∀ posResult : Option Nat,
      (((p.create parse).1.get_status posResult)).2.state = "NULL" := by
  cases hp : parse p.build_pipeline_string with
  | error e =>
      rw [GstreamerPipeline.create, hp] at h
      simp at h
  | ok u =>
      rw [GstreamerPipeline.create, hp] at h
      simp only [Except.ok.injEq] at h
      subst h
      refine ⟨rfl, ?_, ?_⟩
      · rw [GstreamerPipeline.create, hp]
        simp
      · intro posResult
        rw [GstreamerPipeline.create, hp]
        simp [GstreamerPipeline.get_status, gstStateName, PIPELINE_STATES]

/-- Witness for C2: a concrete pipeline whose create succeeds. -/
theorem create_success_reports_null_and_subscribes_witness :
    (preCreate.create (fun _ => Except.ok ())).2 =
      Except.ok { id := "p1", description := "d", state := "NULL",
                  elements := [srcStage] } ∧
    (preCreate.create (fun _ => Except.ok ())).1.bus_watch_id.isSome = true := by
  refine ⟨rfl, ?_⟩
  exact (create_success_reports_null_and_subscribes preCreate
    (fun _ => Except.ok ()) _ rfl).2.1

/-- C5: a `createPipeline` command whose elements list is empty fails with
`invalid-pipeline` and returns the registry unchanged, so no pipeline is
registered and the engine is never asked to build anything. -/
theorem createPipeline_empty_elements_invalid
    (st : List (String × GstreamerPipeline)) (env : EngineEnv)
    (oid odesc : Option String) :
    handle_message st env (Command.createPipeline oid odesc []) =
      (st, [Outbound.pipelineError
              (some (oid.getD ("pipeline-" ++ toString env.now)))
              "invalid-pipeline" "No pipeline elements provided" env.now]) := by
  simp [handle_message]

/-- C9: `stop()` never requests NULL from the engine — with a live handle
it requests exactly PAUSED; it fails `not-created` with no handle,
`stop-failed` when the engine rejects the request, and otherwise returns
the PAUSED snapshot. -/
theorem stop_requests_paused_only (p : GstreamerPipeline)
    (setState : GstState → StateChangeReturn) :
    GstState.NULL ∉ (p.stop setState).2.1 ∧
    (p.pipeline.isSome = true → (p.stop setState).2.1 = [GstState.PAUSED]) ∧
    (p.pipeline = none →
      (p.stop setState).2.2 =
        Except.error { id := p.id, errorCode := "not-created",
                       errorMessage := "Pipeline not created" }) ∧
    (p.pipeline.isSome = true →
      setState GstState.PAUSED = StateChangeReturn.FAILURE →
      (p.stop setState).2.2 =
        Except.error { id := p.id, errorCode := "stop-failed",
                       errorMessage := "Failed to pause pipeline" }) ∧
    (p.pipeline.isSome = true →
      setState GstState.PAUSED ≠ StateChangeReturn.FAILURE →
      (p.stop setState).2.2 =
        Except.ok { id := p.id, state := "PAUSED", message := "Pipeline paused" }) := by
  cases hp : p.pipeline with
  | none => simp [GstreamerPipeline.stop, hp]
  | some eng =>
      cases hs : setState GstState.PAUSED <;>
        simp [GstreamerPipeline.stop, hp, hs]

/-- Witness for C9: stopping a concrete PLAYING pipeline whose engine
accepts the request. -/
theorem stop_requests_paused_only_witness :
    (plOld.stop (fun _ => StateChangeReturn.SUCCESS)).2.1 = [GstState.PAUSED] ∧
    (plOld.stop (fun _ => StateChangeReturn.SUCCESS)).2.2 =
      Except.ok { id := "p1", state := "PAUSED", message := "Pipeline paused" } := by
  have h := stop_requests_paused_only plOld (fun _ => StateChangeReturn.SUCCESS)
  exact ⟨h.2.1 rfl, h.2.2.2.2 rfl (by decide)⟩

/-- C10: broadcasting while no client is connected is a complete no-op:
the message dict comes back unmodified (in particular no timestamp is
attached) and no send is attempted. -/
theorem broadcast_empty_clients_noop (now : Nat) (message : BroadcastDict) :
    broadcast_message [] now message = (message, []) := rfl

/-- C6: each mutating command (start, stop, delete) on a pipeline id
absent from the registry replies `not-found` and leaves the registry
unchanged. -/
theorem mutating_commands_unknown_id_not_found
    (st : List (String × GstreamerPipeline)) (env : EngineEnv) (pid : String)
    (h : dictLookup st pid = none) :
    handle_message st env (Command.startPipeline (some pid)) =
      (st, [Outbound.pipelineError (some pid) "not-found" "Pipeline not found"
              env.now]) ∧
    handle_message st env (Command.stopPipeline (some pid)) =
      (st, [Outbound.pipelineError (some pid) "not-found" "Pipeline not found"
              env.now]) ∧
    handle_message st env (Command.deletePipeline (some pid)) =
      (st, [Outbound.pipelineError (some pid) "not-found" "Pipeline not found"
              env.now]) := by
  by_cases he : pid.isEmpty <;>
    simp [handle_message, notFoundReply, he, h]

/-- Witness for C6: an unknown id against the empty registry. -/
theorem mutating_commands_unknown_id_not_found_witness :
    handle_message [] okEnv (Command.startPipeline (some "p1")) =
      ([], [Outbound.pipelineError (some "p1") "not-found" "Pipeline not found"
              1000]) := by
  exact (mutating_commands_unknown_id_not_found [] okEnv "p1" rfl).1

/-- C7: with a non-empty connected set, `broadcast_message` attempts the
send on every client independently and collects every outcome instead of
propagating it, so one client's failure cannot prevent delivery to any
other client. -/
theorem broadcast_partial_failure_isolation (clients : List Client)
    (now : Nat) (message : BroadcastDict) (h : clients ≠ []) :
    (broadcast_message clients now message).2 =
      clients.map
        (fun c => c.send (encodeDict { message with timestamp := some now })) ∧
    ∀ c ∈ clients,
      c.send (encodeDict { message with timestamp := some now }) = Except.ok () →
      Except.ok () ∈ (broadcast_message clients now message).2 := by
  obtain ⟨a, as, rfl⟩ : ∃ a as, clients = a :: as := by
    cases clients with
    | nil => exact absurd rfl h
    | cons a as => exact ⟨a, as, rfl⟩
  refine ⟨rfl, ?_⟩
  intro c hc hok
  show Except.ok () ∈ (a :: as).map
    (fun c => c.send (encodeDict { message with timestamp := some now }))
  exact List.mem_map.mpr ⟨c, hc, hok⟩

/-- A client whose send always succeeds. -/
def okClient : Client := { send := fun _ => Except.ok () }

/-- A client whose send raises (broken connection). -/
def failClient : Client := { send := fun _ => Except.error "connection closed" }

/-- Witness for C7: one broken and one healthy client — the broken send's
exception is collected while the healthy client still receives. -/
theorem broadcast_partial_failure_isolation_witness :
    (broadcast_message [failClient, okClient] 5
        { body := "b", timestamp := none }).2 =
      [Except.error "connection closed", Except.ok ()] := by
  have h := broadcast_partial_failure_isolation [failClient, okClient] 5
    { body := "b", timestamp := none } (by simp)
  rw [h.1]
  rfl

/-- C1 counterexample: with "p1" already registered (as `plOld`), a
duplicate createPipeline does not fail with `already-exists` — it replies
`pipelineCreated`, and the registry entry for "p1" is replaced by the new
handle (which differs from the old one). -/
theorem duplicate_createPipeline_cex :
    (handle_message [("p1", plOld)] okEnv
        (Command.createPipeline (some "p1") none [srcStage])).2 =
      [Outbound.pipelineCreated
        { id := "p1", description := "Pipeline p1", state := "NULL",
          elements := [srcStage] } 1000] ∧
    dictLookup (handle_message [("p1", plOld)] okEnv
        (Command.createPipeline (some "p1") none [srcStage])).1 "p1" =
      some plCreated ∧
    plCreated ≠ plOld := by
  exact ⟨rfl, rfl, by decide⟩

/-- C1 (amended): a duplicate createPipeline with an existing id does not
fail — when the engine accepts the descriptor, the server replies
`pipelineCreated` and silently replaces the existing registry entry with
the newly created handle, the registry keeping its size (no second entry
is created, but the old handle is dropped). -/
theorem duplicate_createPipeline_overwrites
    (st : List (String × GstreamerPipeline)) (env : EngineEnv) (pid : String)
    (old : GstreamerPipeline) (odesc : Option String)
    (elements : List StageSpec)
    (hmem : dictLookup st pid = some old) (hne : elements ≠ [])
    (hparse : env.parse (String.intercalate " ! " (elements.map stageString)) =
      Except.ok ()) :
    ∃ newPl : GstreamerPipeline,
      handle_message st env (Command.createPipeline (some pid) odesc elements) =
        (dictInsert st pid newPl,
         [Outbound.pipelineCreated
            { id := pid, description := odesc.getD ("Pipeline " ++ pid),
              state := "NULL", elements := elements } env.now]) ∧
      newPl.pipeline = some { state := GstState.NULL } ∧
      newPl.bus_watch_id = some 1 ∧
      dictLookup (dictInsert st pid newPl) pid = some newPl ∧
      (dictInsert st pid newPl).length = st.length := by
  refine ⟨{ id := pid, description := odesc.getD ("Pipeline " ++ pid),
            elements := elements, pipeline := some { state := GstState.NULL },
            bus_watch_id := some 1 }, ?_, rfl, rfl,
          dictLookup_dictInsert_self _ _ _,
          dictInsert_length_of_lookup st pid old _ hmem⟩
  cases elements with
  | nil => exact absurd rfl hne
  | cons a as =>
      simp only [handle_message, Option.getD_some, List.isEmpty_cons,
        Bool.false_eq_true, if_false, GstreamerPipeline.create,
        GstreamerPipeline.build_pipeline_string]
      rw [hparse]

/-- Witness for C1 (amended): the concrete duplicate-id run. -/
theorem duplicate_createPipeline_overwrites_witness :
    ∃ newPl : GstreamerPipeline,
      handle_message [("p1", plOld)] okEnv
          (Command.createPipeline (some "p1") none [srcStage]) =
        (dictInsert [("p1", plOld)] "p1" newPl,
         [Outbound.pipelineCreated
            { id := "p1", description := "Pipeline p1", state := "NULL",
              elements := [srcStage] } 1000]) ∧
      newPl.pipeline = some { state := GstState.NULL } ∧
      newPl.bus_watch_id = some 1 ∧
      dictLookup (dictInsert [("p1", plOld)] "p1" newPl) "p1" = some newPl ∧
      (dictInsert [("p1", plOld)] "p1" newPl).length = 1 := by
  exact duplicate_createPipeline_overwrites [("p1", plOld)] okEnv "p1" plOld
    none [srcStage] rfl (by simp) rfl

/-- C3 counterexample: the message scheduled for broadcast on an engine
ERROR event carries errorCode "gst-error", which is not "engine-error". -/
theorem engine_error_code_cex :
    (plOld.bus_callback (BusMessage.error "boom" (some "dbg"))).2.1 =
      some { type := "pipelineError",
             payload := AsyncPayload.errorInfo "p1" "gst-error" "boom"
               (some "dbg") } ∧
    ({ type := "pipelineError",
       payload := AsyncPayload.errorInfo "p1" "gst-error" "boom"
         (some "dbg") } : AsyncMsg) ≠
      { type := "pipelineError",
        payload := AsyncPayload.errorInfo "p1" "engine-error" "boom"
          (some "dbg") } := by
  exact ⟨rfl, by decide⟩

/-- The `pipelineError` dict scheduled by `bus_callback` for an engine
ERROR with message `m` and debug details `d` on pipeline `pid`. -/
def gstErrorMsg (pid m : String) (d : Option String) : AsyncMsg :=
  { type := "pipelineError",
    payload := AsyncPayload.errorInfo pid "gst-error" m d }

/-- C3 (amended): every asynchronous engine ERROR event schedules a
`pipelineError` broadcast whose errorCode is "gst-error" (not
"engine-error") and whose payload carries the engine's message and debug
details; the callback records the error, keeps the watch alive, and with a
non-empty connected set the broadcast attempts the send on every client. -/
theorem engine_error_broadcast (p : GstreamerPipeline) (m : String)
    (d : Option String) (clients : List Client) (now : Nat)
    (h : clients ≠ []) :
    (p.bus_callback (BusMessage.error m d)).2.1 =
      some (gstErrorMsg p.id m d) ∧
    (p.bus_callback (BusMessage.error m d)).1.error = some m ∧
    (p.bus_callback (BusMessage.error m d)).2.2 = true ∧
    (broadcast_message clients now
        { body := asyncBody (gstErrorMsg p.id m d), timestamp := none }).2 =
      clients.map (fun c => c.send (encodeDict
        { body := asyncBody (gstErrorMsg p.id m d),
          timestamp := some now })) := by
  obtain ⟨a, as, rfl⟩ : ∃ a as, clients = a :: as := by
    cases clients with
    | nil => exact absurd rfl h
    | cons a as => exact ⟨a, as, rfl⟩
  exact ⟨rfl, rfl, rfl, rfl⟩

/-- Witness for C3 (amended): a concrete ERROR event and one client. -/
theorem engine_error_broadcast_witness :
    (plOld.bus_callback (BusMessage.error "boom" none)).2.1 =
      some { type := "pipelineError",
             payload := AsyncPayload.errorInfo "p1" "gst-error" "boom" none } := by
  exact (engine_error_broadcast plOld "boom" none [okClient] 7 (by simp)).1

/-- C4 counterexample: with "p1" registered, issuing deletePipeline twice
in succession makes the second command reply `not-found` — it does not
repeat the first call's snapshot and it does return an error. -/
theorem deletePipeline_twice_cex :
    (handle_message
        (handle_message [("p1", plOld)] okEnv
          (Command.deletePipeline (some "p1"))).1
        okEnv (Command.deletePipeline (some "p1"))).2 =
      [Outbound.pipelineError (some "p1") "not-found" "Pipeline not found"
         1000] := rfl

/-- C4 (amended): at the handle level, `delete()` is idempotent — a second
`delete()` is a no-op that returns the identical snapshot and never
errors, and status afterwards reports NULL with empty stats; at the
command level, however, a second `deletePipeline` for the same id always
replies `not-found`, because a successful first delete removes the
registry entry. -/
theorem delete_idempotent_second_command_not_found
    (p : GstreamerPipeline) (posResult : Option Nat)
    (st : List (String × GstreamerPipeline)) (env1 env2 : EngineEnv)
    (pid : String) (hnd : (st.map Prod.fst).Nodup) :
    ((p.delete).1.delete).2.2 = (p.delete).2.2 ∧
    ((p.delete).1.delete).1 = (p.delete).1 ∧
    ((p.delete).1.get_status posResult).2 =
      { id := p.id, state := "NULL", stats := none } ∧
    (handle_message
        (handle_message st env1 (Command.deletePipeline (some pid))).1
        env2 (Command.deletePipeline (some pid))).2 =
      [Outbound.pipelineError (some pid) "not-found" "Pipeline not found"
         env2.now] := by
  have hdel : ∀ q : GstreamerPipeline,
      ((q.delete).1).pipeline = none ∧ ((q.delete).1).id = q.id ∧
      (q.delete).2.2 = { id := q.id, message := "Pipeline deleted" } := by
    intro q
    cases hq : q.pipeline <;> by_cases hb : optTruthy q.bus_watch_id <;>
      simp [GstreamerPipeline.delete, hq, hb]
  have hnoop : ∀ q : GstreamerPipeline, q.pipeline = none →
      q.delete = (q, [], { id := q.id, message := "Pipeline deleted" }) := by
    intro q hq
    simp [GstreamerPipeline.delete, hq]
  refine ⟨?_, ?_, ?_, ?_⟩
  · rw [(hdel (p.delete).1).2.2, (hdel p).2.2, (hdel p).2.1]
  · rw [hnoop _ (hdel p).1]
  · rw [GstreamerPipeline.get_status, (hdel p).1, (hdel p).2.1]
  · by_cases he : pid.isEmpty
    · simp [handle_message, notFoundReply, he]
    · cases hl : dictLookup st pid with
      | none => simp [handle_message, notFoundReply, he, hl]
      | some q =>
          have h2 : dictLookup (dictErase st pid) pid = none :=
            dictLookup_dictErase_self st pid hnd
          simp [handle_message, notFoundReply, he, hl, h2]

/-- Witness for C4 (amended): the concrete registered pipeline. -/
theorem delete_idempotent_second_command_not_found_witness :
    ((plOld.delete).1.delete).2.2 = (plOld.delete).2.2 ∧
    (handle_message
        (handle_message [("p1", plOld)] okEnv
          (Command.deletePipeline (some "p1"))).1
        okEnv (Command.deletePipeline (some "p1"))).2 =
      [Outbound.pipelineError (some "p1") "not-found" "Pipeline not found"
         1000] := by
  have h := delete_idempotent_second_command_not_found plOld none
    [("p1", plOld)] okEnv okEnv "p1" (by simp)
  exact ⟨h.1, h.2.2.2⟩

/-- C8: in one iteration of the telemetry loop body, a `pipelineStats`
message is emitted for exactly the registry entries whose freshly
recomputed status reports PLAYING; and the loop consumes every tick of a
trace — a tick whose body raises is caught, emits nothing, and the
following ticks are still processed, so an exception never terminates the
loop. -/
theorem stats_tick_playing_iff :
    (∀ (regs : List (String × GstreamerPipeline))
        (posQ : String → Option Nat) (msg : AsyncMsg),
      msg ∈ (send_stats_iteration regs posQ).2 ↔
        ∃ pid p, (pid, p) ∈ regs ∧
          (p.get_status (posQ pid)).2.state = "PLAYING" ∧
          msg = statsMessage pid (p.get_status (posQ pid)).2.stats) ∧
    ∀ ticks : List TickInput,
      (send_stats_updates ticks).length = ticks.length := by
  constructor
  · intro regs posQ msg
    induction regs with
    | nil => simp [send_stats_iteration]
    | cons hd tl ih =>
        obtain ⟨pid, p⟩ := hd
        by_cases hps : (p.get_status (posQ pid)).2.state = "PLAYING"
        · rw [show send_stats_iteration ((pid, p) :: tl) posQ =
                ((pid, (p.get_status (posQ pid)).1) ::
                    (send_stats_iteration tl posQ).1,
                  statsMessage pid (p.get_status (posQ pid)).2.stats ::
                    (send_stats_iteration tl posQ).2)
              from by rw [send_stats_iteration]; simp [hps]]
          constructor
          · intro hmem
            rcases List.mem_cons.mp hmem with heq | hmem
            · exact ⟨pid, p, List.mem_cons_self _ _, hps, heq⟩
            · obtain ⟨pid1, p1, hm, hs, he⟩ := ih.mp hmem
              exact ⟨pid1, p1, List.mem_cons_of_mem _ hm, hs, he⟩
          · rintro ⟨pid1, p1, hm, hs, he⟩
            rcases List.mem_cons.mp hm with heq | hmem
            · rw [Prod.mk.injEq] at heq
              obtain ⟨h1, h2⟩ := heq
              subst h1
              subst h2
              subst he
              exact List.mem_cons_self _ _
            · exact List.mem_cons_of_mem _ (ih.mpr ⟨pid1, p1, hmem, hs, he⟩)
        · rw [show send_stats_iteration ((pid, p) :: tl) posQ =
                ((pid, (p.get_status (posQ pid)).1) ::
                    (send_stats_iteration tl posQ).1,
                  (send_stats_iteration tl posQ).2)
              from by rw [send_stats_iteration]; simp [hps]]
          constructor
          · intro hmem
            obtain ⟨pid1, p1, hm, hs, he⟩ := ih.mp hmem
            exact ⟨pid1, p1, List.mem_cons_of_mem _ hm, hs, he⟩
          · rintro ⟨pid1, p1, hm, hs, he⟩
            rcases List.mem_cons.mp hm with heq | hmem
            · rw [Prod.mk.injEq] at heq
              obtain ⟨h1, h2⟩ := heq
              subst h1
              subst h2
              exact absurd hs hps
            · exact ih.mpr ⟨pid1, p1, hmem, hs, he⟩
  · intro ticks
    induction ticks with
    | nil => rfl
    | cons t rest ih => cases t <;> simp [send_stats_updates, ih]

/-- Witness for C8: in a registry holding a NULL pipeline and a PLAYING
pipeline, the tick broadcasts stats for the PLAYING one. -/
theorem stats_tick_playing_iff_witness :
    statsMessage "p1" (some (computeStats none)) ∈
      (send_stats_iteration [("p0", plCreated), ("p1", plOld)]
        (fun _ => none)).2 := by
  exact (stats_tick_playing_iff.1 _ _ _).mpr
    ⟨"p1", plOld, by simp, rfl, rfl⟩
